/-
Verification of the Battle Decks session coordinator (`GameSession` Durable
Object, `src/game-session.ts`, together with its types in `src/types/index.ts`).

The embedding below is a shallow model of the coordinator's state machine:

* `GameState`, `GamePhase`, `VoteChoice` mirror the TypeScript interfaces.
* The SQLite `adjacency` table becomes an association list `AdjTable`;
  `lookupAdj` models `SELECT * FROM adjacency WHERE slide_id = ?`.
* The KV deck store consulted by `startGame` becomes `DeckEnv`.
* Each RPC / timer handler becomes a pure function from the in-memory state
  (`Option GameState`, `none` = no session record loaded) to the new state,
  the synchronous result, and the ordered list of externally visible
  `Action`s it performs (SQLite writes, alarms, WebSocket broadcasts), in
  the order the source performs them.
* `Date.now()` is passed in as an explicit `now : Nat` parameter.
-/

import Mathlib

namespace BattleDecks

/-- Source type `GamePhase = 'waiting' | 'presenting' | 'voting' | 'finished'`. -/
inductive GamePhase where
  | waiting
  | presenting
  | voting
  | finished
deriving DecidableEq, Repr

/-- Source type `VoteChoice = 'logical' | 'chaotic'`. -/
inductive VoteChoice where
  | logical
  | chaotic
deriving DecidableEq, Repr

/-- The `votes: { logical: number; chaotic: number }` field of `GameState`. -/
structure Votes where
  logical : Nat
  chaotic : Nat
deriving DecidableEq, Repr

/-- The in-memory `GameState` interface of `src/types/index.ts`. -/
structure GameState where
  sessionId : String
  currentSlide : String
  usedSlides : Finset String
  phase : GamePhase
  votes : Votes
  voters : Finset String
  votingOpen : Bool
  timerEnd : Nat
  slideCount : Nat
  maxSlides : Nat
deriving DecidableEq

/-- One row of the SQLite `adjacency` table (`AdjacencyRecord`), with the two
JSON-encoded neighbor lists already decoded. -/
structure AdjEntry where
  slide_id : String
  logical_slides : List String
  chaotic_slides : List String
deriving DecidableEq, Repr

/-- The SQLite `adjacency` table. -/
def AdjTable := List AdjEntry

instance : DecidableEq AdjTable := by
  unfold AdjTable
  infer_instance

/-- Models `SELECT * FROM adjacency WHERE slide_id = ?` (slide_id is the primary
key, so the first matching row is the row). -/
def lookupAdj (adj : AdjTable) (slideId : String) : Option AdjEntry :=
  List.find? (fun e => e.slide_id == slideId) adj

/-- One row of the SQLite `game_session` table (`GameRecord`): the fields
`saveGameState` persists.  `used_slides` is stored as
`JSON.stringify(Array.from(set))` and read back with
`new Set(JSON.parse(...))`; the set-to-list-to-set round trip preserves the
set, so we keep it as a `Finset`. -/
structure GameRecord where
  session_id : String
  current_slide : String
  used_slides : Finset String
  phase : GamePhase
  slide_count : Nat
  max_slides : Nat
  timer_end : Nat
deriving DecidableEq

/-- The error responses the coordinator's mutating RPCs return (each
constructor is one literal `error:` string in the source). -/
inductive GameError where
  /-- Error `'Session not initialized'` (startGame with no session record). -/
  | sessionNotInitialized
  /-- Error `'Voting is not currently open'` (vote with no state or closed round). -/
  | votingNotOpen
  /-- Error `'User has already voted'`. -/
  | alreadyVoted
  /-- Error `'Deck not found: <id>'` (no metadata record in KV). -/
  | deckNotFound
  /-- Error `'Deck is not ready. Current status: <status>'`. -/
  | deckNotReady
  /-- Error `'Deck adjacency data not found for: <id>'`. -/
  | deckAdjacencyNotFound
deriving DecidableEq, Repr

/-- Externally visible side effects of one handler, in program order:
SQLite persistence (`saveGameState`), `ctx.storage.setAlarm`, and the
WebSocket broadcasts. -/
inductive Action where
  /-- Call of `saveGameState()`: INSERT OR REPLACE of the current state. -/
  | save (gs : GameState)
  /-- Call of `ctx.storage.setAlarm(t)`. -/
  | setAlarm (t : Nat)
  /-- Call of `broadcastGameState()` (snapshot taken from `gs`). -/
  | broadcastState (gs : GameState)
  /-- Call of `broadcastVoteUpdate()`. -/
  | broadcastVotes (v : Votes)
  /-- Call of `broadcastSlideChange(slideId)`. -/
  | broadcastSlide (slideId : String)
deriving DecidableEq

/-- The deck KV namespace (`env.DECKS`) as seen by `startGame`:
`deck:<id>:metadata` yields a status string, `deck:<id>:adjacency` yields
the decoded adjacency map. -/
structure DeckEnv where
  metadataStatus : String → Option String
  adjacencyData : String → Option AdjTable

/-- RPC `initialize(roomCode)`: the fresh `GameState` it installs. -/
def initialState (sessionId : String) : GameState :=
  { sessionId := sessionId
    currentSlide := "slide_1"
    usedSlides := {"slide_1"}
    phase := .waiting
    votes := ⟨0, 0⟩
    voters := ∅
    votingOpen := false
    timerEnd := 0
    slideCount := 1
    maxSlides := 10 }

/-- Models `saveGameState()`: the row written to `game_session`. -/
def saveRecord (gs : GameState) : GameRecord :=
  { session_id := gs.sessionId
    current_slide := gs.currentSlide
    used_slides := gs.usedSlides
    phase := gs.phase
    slide_count := gs.slideCount
    max_slides := gs.maxSlides
    timer_end := gs.timerEnd }

/-- Models `loadGameState()`: the in-memory state rebuilt from a persisted row.
The round fields are not persisted, so they are reinitialized:
`votes: { logical: 0, chaotic: 0 }, voters: new Set(), votingOpen: false`. -/
def loadFromRecord (r : GameRecord) : GameState :=
  { sessionId := r.session_id
    currentSlide := r.current_slide
    usedSlides := r.used_slides
    phase := r.phase
    votes := ⟨0, 0⟩
    voters := ∅
    votingOpen := false
    timerEnd := r.timer_end
    slideCount := r.slide_count
    maxSlides := r.max_slides }

/-- Result of `startGame`: the HTTP result, the new in-memory state, the
(possibly replaced) `adjacency` table, and the side effects in order. -/
structure StartOut where
  result : Except GameError GameState
  state : Option GameState
  adjacency : AdjTable
  actions : List Action

/-- RPC `startGame(deckId, maxSlides = 10)`.  After `ensureGameStateLoaded`, a
missing session record fails with `'Session not initialized'`.  A non-empty
`deckId` other than `'default'` is loaded from KV (checking metadata
presence and `status === 'ready'`, then the adjacency blob, which replaces
the `adjacency` table).  On success the phase is set to `presenting`,
`maxSlides` and `timerEnd = now + 45000` are set, the state is saved, a
45s presentation alarm is armed and the full state is broadcast.
(The source performs no check that the current phase is `waiting`.)

`loadDeck` is the deck-loading block of `startGame`: a non-empty `deckId`
other than `'default'` must have a KV metadata record with
`status === 'ready'` and an adjacency blob, which replaces the `adjacency`
table; otherwise the existing table is kept. -/
def loadDeck (env : DeckEnv) (adj : AdjTable) (deckId : String) :
    Except GameError AdjTable :=
  if deckId ≠ "" ∧ deckId ≠ "default" then
    match env.metadataStatus deckId with
    | none => .error .deckNotFound
    | some status =>
      if status ≠ "ready" then .error .deckNotReady
      else
        match env.adjacencyData deckId with
        | none => .error .deckAdjacencyNotFound
        | some newAdj => .ok newAdj
  else .ok adj

def startGame (env : DeckEnv) (adj : AdjTable) (st : Option GameState)
    (deckId : String) (maxSlides : Nat) (now : Nat) : StartOut :=
  match st with
  | none => ⟨.error .sessionNotInitialized, none, adj, []⟩
  | some gs =>
    match loadDeck env adj deckId with
    | .error e => ⟨.error e, some gs, adj, []⟩
    | .ok adj' =>
      let gs' : GameState :=
        { gs with phase := .presenting, maxSlides := maxSlides, timerEnd := now + 45000 }
      ⟨.ok gs', some gs', adj',
        [.save gs', .setAlarm (now + 45000), .broadcastState gs']⟩

/-- Result of `vote`: the HTTP result (`currentVotes` on success), the new
in-memory state, and the side effects. -/
structure VoteOut where
  result : Except GameError Votes
  state : Option GameState
  actions : List Action

/-- RPC `vote(userId, choice)`.  Here `!this.gameState || !this.gameState.votingOpen`
fails with `'Voting is not currently open'` (note: a missing session record
produces this same error, not a session-not-found error); a repeat voter
fails with `'User has already voted'`; otherwise the chosen tally is
incremented, the voter is recorded, and a vote update is broadcast. -/
def vote (st : Option GameState) (userId : String) (choice : VoteChoice) : VoteOut :=
  match st with
  | none => ⟨.error .votingNotOpen, none, []⟩
  | some gs =>
    if gs.votingOpen = false then ⟨.error .votingNotOpen, some gs, []⟩
    else if userId ∈ gs.voters then ⟨.error .alreadyVoted, some gs, []⟩
    else
      let v' : Votes :=
        match choice with
        | .logical => ⟨gs.votes.logical + 1, gs.votes.chaotic⟩
        | .chaotic => ⟨gs.votes.logical, gs.votes.chaotic + 1⟩
      let gs' : GameState := { gs with votes := v', voters := insert userId gs.voters }
      ⟨.ok v', some gs', [.broadcastVotes v']⟩

/-- The `for (const slideId of options)` loop in `getNextSlide`: first
element not in `used`, else `null`. -/
def firstUnused (used : Finset String) : List String → Option String
  | [] => none
  | s :: rest => if s ∈ used then firstUnused used rest else some s

/-- The ranked option list `getNextSlide` scans for a choice. -/
def choiceList (choice : VoteChoice) (e : AdjEntry) : List String :=
  match choice with
  | .logical => e.logical_slides
  | .chaotic => e.chaotic_slides

/-- Models `getNextSlide(choice)`: look up the current slide's adjacency row
(`null` if absent) and return the first ranked neighbor for `choice` that
is not in `usedSlides`, else `null`. -/
def getNextSlide (adj : AdjTable) (gs : GameState) (choice : VoteChoice) : Option String :=
  match lookupAdj adj gs.currentSlide with
  | none => none
  | some entry => firstUnused gs.usedSlides (choiceList choice entry)

/-- Line 745 of the source:
`votes.logical > votes.chaotic ? 'logical' : 'chaotic'`. -/
def determineWinner (v : Votes) : VoteChoice :=
  if v.logical > v.chaotic then .logical else .chaotic

/-- Models `processVotesAndAdvance()` (voting-timer fire): close voting, determine
the winner, compute the next slide; if there is none or
`slideCount >= maxSlides`, set phase `finished`, broadcast, then save (the
source broadcasts before saving in this branch); otherwise advance to the
next slide, save, arm a 45s presentation alarm, broadcast state then the
slide change. -/
def processVotesAndAdvance (adj : AdjTable) (gs : GameState) (now : Nat) :
    Option GameState × List Action :=
  let gs0 : GameState := { gs with votingOpen := false }
  let winner := determineWinner gs0.votes
  match getNextSlide adj gs0 winner with
  | none =>
    let gs1 : GameState := { gs0 with phase := .finished }
    (some gs1, [.broadcastState gs1, .save gs1])
  | some nextSlide =>
    if gs0.slideCount ≥ gs0.maxSlides then
      let gs1 : GameState := { gs0 with phase := .finished }
      (some gs1, [.broadcastState gs1, .save gs1])
    else
      let gs1 : GameState :=
        { gs0 with
          currentSlide := nextSlide
          usedSlides := insert nextSlide gs0.usedSlides
          slideCount := gs0.slideCount + 1
          phase := .presenting
          timerEnd := now + 45000 }
      (some gs1, [.save gs1, .setAlarm (now + 45000), .broadcastState gs1,
                  .broadcastSlide nextSlide])

/-- Models `startVotingTimer()`: open voting, clear the round (`voters.clear()`,
zero tallies), set `timerEnd = now + 10000`, save, arm the 10s alarm,
broadcast the state. -/
def startVotingTimer (gs : GameState) (now : Nat) : GameState × List Action :=
  let gs' : GameState :=
    { gs with votingOpen := true, voters := ∅, votes := ⟨0, 0⟩, timerEnd := now + 10000 }
  (gs', [.save gs', .setAlarm (now + 10000), .broadcastState gs'])

/-- Models `alarm()`: with no session record it is a no-op.  In `presenting`, if
`slideCount >= maxSlides` go directly to `finished` (save, broadcast, no
new alarm, round untouched); otherwise set phase `voting`, save, then run
`startVotingTimer`.  In `voting`, run `processVotesAndAdvance`.  In
`waiting`/`finished` nothing happens. -/
def alarm (adj : AdjTable) (st : Option GameState) (now : Nat) :
    Option GameState × List Action :=
  match st with
  | none => (none, [])
  | some gs =>
    match gs.phase with
    | .presenting =>
      if gs.slideCount ≥ gs.maxSlides then
        let gs1 : GameState := { gs with phase := .finished }
        (some gs1, [.save gs1, .broadcastState gs1])
      else
        let gs1 : GameState := { gs with phase := .voting }
        let out := startVotingTimer gs1 now
        (some out.1, .save gs1 :: out.2)
    | .voting => processVotesAndAdvance adj gs now
    | .waiting => (some gs, [])
    | .finished => (some gs, [])

/-- The coordinator's SQLite-backed working set relevant to the game logic:
the `adjacency` table plus the (possibly absent) in-memory game state. -/
structure Coord where
  adjacency : AdjTable
  gameState : Option GameState

/-- One completed transition of a running session: a `startGame` RPC, a
`vote` RPC, an `alarm` fire, or a crash/recreation (the in-memory state is
dropped and rebuilt by `loadGameState` from the last persisted row of this
state — the source's hibernation round trip). -/
inductive Step : Coord → Coord → Prop where
  | start (c : Coord) (env : DeckEnv) (deckId : String) (maxSlides now : Nat) :
      Step c ⟨(startGame env c.adjacency c.gameState deckId maxSlides now).adjacency,
              (startGame env c.adjacency c.gameState deckId maxSlides now).state⟩
  | voteStep (c : Coord) (userId : String) (choice : VoteChoice) :
      Step c ⟨c.adjacency, (vote c.gameState userId choice).state⟩
  | alarmStep (c : Coord) (now : Nat) :
      Step c ⟨c.adjacency, (alarm c.adjacency c.gameState now).1⟩
  | reload (c : Coord) (gs : GameState) :
      c.gameState = some gs →
      Step c ⟨c.adjacency, some (loadFromRecord (saveRecord gs))⟩

/-- States of one game: `initialize` installs `initialState`, then the
session evolves by `Step`s. -/
inductive Reach : Coord → Prop where
  | init (adj : AdjTable) (sessionId : String) :
      Reach ⟨adj, some (initialState sessionId)⟩
  | step (c c' : Coord) : Reach c → Step c c' → Reach c'

/-- The slide bookkeeping invariant of §3 of the design: the current slide
has been recorded as used and the 1-based slide count matches the number of
used slides. -/
def SlideInv (gs : GameState) : Prop :=
  gs.currentSlide ∈ gs.usedSlides ∧ gs.slideCount = gs.usedSlides.card

/-- The used-slide set of a possibly absent state (empty when absent). -/
def stateUsed (st : Option GameState) : Finset String :=
  match st with
  | none => ∅
  | some gs => gs.usedSlides

/-- The round-tally invariant of §3: every recorded voter is counted exactly
once, so the voter-set size is the tally total. -/
def TallyInv (gs : GameState) : Prop :=
  gs.voters.card = gs.votes.logical + gs.votes.chaotic

/-- Folding a list of `vote(userId, choice)` calls over the in-memory state
(each call sees the state the previous one left). -/
def applyVotes (st : Option GameState) (calls : List (String × VoteChoice)) :
    Option GameState :=
  calls.foldl (fun s c => (vote s c.1 c.2).state) st

/-- A deck KV namespace with no decks stored. -/
def emptyDeckEnv : DeckEnv := ⟨fun _ => none, fun _ => none⟩

/-- The mock adjacency row for `slide_1` installed by `loadMockSlideData`. -/
def mockSlide1 : AdjEntry :=
  ⟨"slide_1", ["slide_2", "slide_3", "slide_4"], ["slide_8", "slide_9", "slide_10"]⟩

/-- A one-row adjacency table holding the mock `slide_1` row. -/
def mockAdj : AdjTable := [mockSlide1]

/-- An initialized session whose game has already finished. -/
def sampleFinished : GameState := { initialState "ROOM01" with phase := .finished }

/-- An initialized session in the `voting` phase (round not yet open). -/
def sampleVoting : GameState := { initialState "ROOM01" with phase := .voting }

/-- An initialized session presenting its final slide
(`slideCount = 1 = maxSlides`). -/
def samplePresentingLast : GameState :=
  { initialState "ROOM01" with phase := .presenting, maxSlides := 1 }

/-- An open voting round in which `v1` has already voted `logical`. -/
def sampleMidRound : GameState :=
  { initialState "ROOM01" with
    phase := .voting
    votingOpen := true
    votes := ⟨1, 0⟩
    voters := {"v1"} }

/-- A freshly opened voting round (the state `startVotingTimer` leaves). -/
def sampleOpenRound : GameState :=
  (startVotingTimer { initialState "ROOM01" with phase := .voting } 0).1

/-- A demonstration vote sequence: `v1` votes, `v1` tries to vote again,
then `v2` votes. -/
def demoCalls : List (String × VoteChoice) :=
  [("v1", .logical), ("v1", .chaotic), ("v2", .chaotic)]

/-- The state `demoCalls` leaves: one logical and one chaotic vote from
the two distinct voters, the duplicate attempt rejected. -/
def demoFinal : GameState :=
  { sampleOpenRound with
    votes := ⟨1, 1⟩
    voters := insert "v2" (insert "v1" sampleOpenRound.voters) }

section Lemmas

lemma firstUnused_eq_none_iff (used : Finset String) (l : List String) :
    firstUnused used l = none ↔ ∀ s ∈ l, s ∈ used := by
  induction l with
  | nil => simp [firstUnused]
  | cons a rest ih =>
    by_cases ha : a ∈ used <;> simp [firstUnused, ha, ih]

lemma firstUnused_eq_some (used : Finset String) (l : List String) (s : String)
    (h : firstUnused used l = some s) :
    s ∉ used ∧ ∃ pre suf, l = pre ++ s :: suf ∧ ∀ t ∈ pre, t ∈ used := by
  induction l with
  | nil => simp [firstUnused] at h
  | cons a rest ih =>
    by_cases ha : a ∈ used
    · simp only [firstUnused, if_pos ha] at h
      obtain ⟨hs, pre, suf, hl, hpre⟩ := ih h
      refine ⟨hs, a :: pre, suf, by simp [hl], ?_⟩
      intro t ht
      rcases List.mem_cons.mp ht with rfl | ht
      · exact ha
      · exact hpre t ht
    · simp only [firstUnused, if_neg ha, Option.some.injEq] at h
      subst h
      exact ⟨ha, [], rest, rfl, by simp⟩

lemma firstUnused_of_split (used : Finset String) (pre suf : List String)
    (s : String) (hs : s ∉ used) (hpre : ∀ t ∈ pre, t ∈ used) :
    firstUnused used (pre ++ s :: suf) = some s := by
  induction pre with
  | nil => simp [firstUnused, hs]
  | cons a pre ih =>
    have ha : a ∈ used := hpre a (by simp)
    simp only [List.cons_append, firstUnused, if_pos ha]
    exact ih (fun t ht => hpre t (by simp [ht]))

lemma getNextSlide_not_used (adj : AdjTable) (gs : GameState)
    (choice : VoteChoice) (s : String) (h : getNextSlide adj gs choice = some s) :
    s ∉ gs.usedSlides := by
  unfold getNextSlide at h
  rcases hlk : lookupAdj adj gs.currentSlide with _ | entry
  · rw [hlk] at h; exact absurd h (by simp)
  · rw [hlk] at h
    exact (firstUnused_eq_some _ _ _ h).1

end Lemmas

section Preservation

lemma startGame_some_fields (env : DeckEnv) (adj : AdjTable) (gs : GameState)
    (deckId : String) (maxSlides now : Nat) :
    ∃ gs', (startGame env adj (some gs) deckId maxSlides now).state = some gs' ∧
      gs'.usedSlides = gs.usedSlides ∧ gs'.currentSlide = gs.currentSlide ∧
      gs'.slideCount = gs.slideCount := by
  cases h : loadDeck env adj deckId with
  | error e => exact ⟨gs, by simp [startGame, h]⟩
  | ok adj' =>
    refine ⟨{ gs with
              phase := .presenting,
              maxSlides := maxSlides,
              timerEnd := now + 45000 }, by simp [startGame, h], rfl, rfl, rfl⟩

lemma vote_some_fields (st : Option GameState) (gs : GameState)
    (userId : String) (choice : VoteChoice) (h : st = some gs) :
    ∃ gs', (vote st userId choice).state = some gs' ∧
      gs'.usedSlides = gs.usedSlides ∧ gs'.currentSlide = gs.currentSlide ∧
      gs'.slideCount = gs.slideCount := by
  subst h
  by_cases hopen : gs.votingOpen = false
  · exact ⟨gs, by simp [vote, hopen]⟩
  · by_cases hv : userId ∈ gs.voters
    · exact ⟨gs, by simp [vote, hopen, hv]⟩
    · cases choice with
      | logical =>
        exact ⟨{ gs with
                 votes := ⟨gs.votes.logical + 1, gs.votes.chaotic⟩,
                 voters := insert userId gs.voters },
               by simp [vote, hopen, hv], rfl, rfl, rfl⟩
      | chaotic =>
        exact ⟨{ gs with
                 votes := ⟨gs.votes.logical, gs.votes.chaotic + 1⟩,
                 voters := insert userId gs.voters },
               by simp [vote, hopen, hv], rfl, rfl, rfl⟩

lemma processVotes_preserves (adj : AdjTable) (gs : GameState) (now : Nat) :
    ∃ gs', (processVotesAndAdvance adj gs now).1 = some gs' ∧
      gs.usedSlides ⊆ gs'.usedSlides ∧ (SlideInv gs → SlideInv gs') := by
  unfold processVotesAndAdvance
  cases hnext : getNextSlide adj { gs with votingOpen := false }
      (determineWinner gs.votes) with
  | none =>
    refine ⟨{ gs with votingOpen := false, phase := .finished }, by simp [hnext], ?_, ?_⟩
    · simp
    · rintro ⟨h1, h2⟩; exact ⟨h1, h2⟩
  | some nextSlide =>
    by_cases hcount : gs.slideCount ≥ gs.maxSlides
    · refine ⟨{ gs with votingOpen := false, phase := .finished },
        by simp [hnext, hcount], ?_, ?_⟩
      · simp
      · rintro ⟨h1, h2⟩; exact ⟨h1, h2⟩
    · have hnotmem : nextSlide ∉ gs.usedSlides :=
        getNextSlide_not_used adj { gs with votingOpen := false } _ _ hnext
      refine ⟨{ gs with
                votingOpen := false,
                currentSlide := nextSlide,
                usedSlides := insert nextSlide gs.usedSlides,
                slideCount := gs.slideCount + 1, phase := .presenting,
                timerEnd := now + 45000 },
        by simp [hnext, hcount], ?_, ?_⟩
      · exact Finset.subset_insert _ _
      · rintro ⟨h1, h2⟩
        refine ⟨Finset.mem_insert_self _ _, ?_⟩
        simp [Finset.card_insert_of_not_mem hnotmem, h2]

lemma alarm_preserves (adj : AdjTable) (gs : GameState) (now : Nat) :
    ∃ gs', (alarm adj (some gs) now).1 = some gs' ∧
      gs.usedSlides ⊆ gs'.usedSlides ∧ (SlideInv gs → SlideInv gs') := by
  cases hph : gs.phase with
  | presenting =>
    by_cases hcount : gs.slideCount ≥ gs.maxSlides
    · refine ⟨{ gs with phase := .finished }, by simp [alarm, hph, hcount], ?_, ?_⟩
      · simp
      · rintro ⟨h1, h2⟩; exact ⟨h1, h2⟩
    · refine ⟨{ gs with
                phase := .voting,
                votingOpen := true,
                voters := ∅,
                votes := ⟨0, 0⟩,
                timerEnd := now + 10000 },
        by simp [alarm, hph, hcount, startVotingTimer], ?_, ?_⟩
      · simp
      · rintro ⟨h1, h2⟩; exact ⟨h1, h2⟩
  | voting =>
    obtain ⟨gs', hgs', hsub, hinv⟩ := processVotes_preserves adj gs now
    exact ⟨gs', by simpa [alarm, hph] using hgs', hsub, hinv⟩
  | waiting => exact ⟨gs, by simp [alarm, hph], by simp, id⟩
  | finished => exact ⟨gs, by simp [alarm, hph], by simp, id⟩

lemma step_preserves (c c' : Coord) (h : Step c c') :
    stateUsed c.gameState ⊆ stateUsed c'.gameState ∧
    ((∀ gs, c.gameState = some gs → SlideInv gs) →
      ∀ gs', c'.gameState = some gs' → SlideInv gs') := by
  cases h with
  | start env deckId maxSlides now =>
    cases hst : c.gameState with
    | none =>
      constructor
      · simp [startGame, hst, stateUsed]
      · intro _ gs' hgs'
        simp [startGame, hst] at hgs'
    | some gs =>
      obtain ⟨gs', hgs', hused, hcur, hcount⟩ :=
        startGame_some_fields env c.adjacency gs deckId maxSlides now
      constructor
      · simp [stateUsed, hgs', hused]
      · intro hinv gs'' hgs''
        simp only [hgs'] at hgs''
        obtain rfl : gs' = gs'' := by injection hgs''
        obtain ⟨h1, h2⟩ := hinv gs rfl
        exact ⟨hcur ▸ hused ▸ h1, hcount ▸ hused ▸ h2⟩
  | voteStep userId choice =>
    cases hst : c.gameState with
    | none =>
      constructor
      · simp [vote, hst, stateUsed]
      · intro _ gs' hgs'
        simp [vote, hst] at hgs'
    | some gs =>
      obtain ⟨gs', hgs', hused, hcur, hcount⟩ :=
        vote_some_fields (some gs) gs userId choice rfl
      constructor
      · simp [stateUsed, hgs', hused]
      · intro hinv gs'' hgs''
        simp only [hgs'] at hgs''
        obtain rfl : gs' = gs'' := by injection hgs''
        obtain ⟨h1, h2⟩ := hinv gs rfl
        exact ⟨hcur ▸ hused ▸ h1, hcount ▸ hused ▸ h2⟩
  | alarmStep now =>
    cases hst : c.gameState with
    | none =>
      constructor
      · simp [alarm, hst, stateUsed]
      · intro _ gs' hgs'
        simp [alarm, hst] at hgs'
    | some gs =>
      obtain ⟨gs', hgs', hsub, hinv⟩ := alarm_preserves c.adjacency gs now
      constructor
      · simpa [stateUsed, hgs'] using hsub
      · intro hall gs'' hgs''
        simp only [hgs'] at hgs''
        obtain rfl : gs' = gs'' := by injection hgs''
        exact hinv (hall gs rfl)
  | reload gs hst =>
    rw [hst]
    constructor
    · simp [stateUsed, loadFromRecord, saveRecord]
    · intro hall gs'' hgs''
      obtain rfl : loadFromRecord (saveRecord gs) = gs'' := by injection hgs''
      obtain ⟨h1, h2⟩ := hall gs rfl
      exact ⟨h1, h2⟩

lemma reach_slideInv (c : Coord) (h : Reach c) :
    ∀ gs, c.gameState = some gs → SlideInv gs := by
  induction h with
  | init adj sessionId =>
    intro gs hgs
    obtain rfl : initialState sessionId = gs := by injection hgs
    constructor
    · simp [initialState]
    · simp [initialState]
  | step c c' _ hstep ih => exact (step_preserves c c' hstep).2 ih

end Preservation

section Tally

lemma vote_some_tally (gs : GameState) (userId : String) (choice : VoteChoice) :
    ∃ gs', (vote (some gs) userId choice).state = some gs' ∧
      (TallyInv gs → TallyInv gs') := by
  by_cases hopen : gs.votingOpen = false
  · exact ⟨gs, by simp [vote, hopen], id⟩
  · by_cases hv : userId ∈ gs.voters
    · exact ⟨gs, by simp [vote, hopen, hv], id⟩
    · cases choice with
      | logical =>
        refine ⟨{ gs with
                  votes := ⟨gs.votes.logical + 1, gs.votes.chaotic⟩,
                  voters := insert userId gs.voters },
                by simp [vote, hopen, hv], ?_⟩
        intro h
        unfold TallyInv at h ⊢
        simp only [Finset.card_insert_of_not_mem hv, h]
        omega
      | chaotic =>
        refine ⟨{ gs with
                  votes := ⟨gs.votes.logical, gs.votes.chaotic + 1⟩,
                  voters := insert userId gs.voters },
                by simp [vote, hopen, hv], ?_⟩
        intro h
        unfold TallyInv at h ⊢
        simp only [Finset.card_insert_of_not_mem hv, h]
        omega

lemma applyVotes_tally (calls : List (String × VoteChoice)) :
    ∀ gs : GameState, TallyInv gs →
      ∀ gs', applyVotes (some gs) calls = some gs' → TallyInv gs' := by
  induction calls with
  | nil =>
    intro gs h gs' heq
    obtain rfl : gs = gs' := by
      simpa [applyVotes] using heq
    exact h
  | cons call rest ih =>
    intro gs h gs' heq
    obtain ⟨gs1, hgs1, hinv1⟩ := vote_some_tally gs call.1 call.2
    have : applyVotes (some gs) (call :: rest) = applyVotes (some gs1) rest := by
      simp [applyVotes, hgs1]
    rw [this] at heq
    exact ih gs1 (hinv1 h) gs' heq

end Tally

/-- C1 (counterexample): the claim says `startGame` invoked in any phase
other than `waiting` fails with an InvalidState error and leaves the
session unchanged.  The source has no such phase check: invoked on an
initialized session in the `finished` phase (with the default deck) it
succeeds and overwrites the phase to `presenting`. -/
theorem startGame_succeeds_in_finished_phase :
    sampleFinished.phase = GamePhase.finished ∧
    (startGame emptyDeckEnv [] (some sampleFinished) "default" 10 0).result =
      .ok { sampleFinished with
            phase := .presenting, maxSlides := 10, timerEnd := 45000 } ∧
    (startGame emptyDeckEnv [] (some sampleFinished) "default" 10 0).state =
      some { sampleFinished with
             phase := .presenting, maxSlides := 10, timerEnd := 45000 } :=
  ⟨rfl, rfl, rfl⟩

/-- C1 (amended): `startGame(deckId, maxSlides)` performs no phase check at
all.  It fails (leaving the state unchanged) exactly when the session is
uninitialized (`'Session not initialized'`) or the requested deck fails to
load; on an initialized session whose deck loads, it succeeds from every
phase and unconditionally sets phase=`presenting`, `maxSlides`, and a
45-second timer. -/
theorem startGame_phase_independent (env : DeckEnv) (adj : AdjTable)
    (st : Option GameState) (deckId : String) (maxSlides now : Nat) :
    (st = none →
      startGame env adj st deckId maxSlides now =
        ⟨.error .sessionNotInitialized, none, adj, []⟩) ∧
    (∀ gs, st = some gs →
      (∀ e, loadDeck env adj deckId = .error e →
        startGame env adj st deckId maxSlides now = ⟨.error e, some gs, adj, []⟩) ∧
      (∀ adj', loadDeck env adj deckId = .ok adj' →
        startGame env adj st deckId maxSlides now =
          ⟨.ok { gs with
                 phase := .presenting, maxSlides := maxSlides,
                 timerEnd := now + 45000 },
           some { gs with
                  phase := .presenting, maxSlides := maxSlides,
                  timerEnd := now + 45000 },
           adj',
           [.save { gs with
                    phase := .presenting, maxSlides := maxSlides,
                    timerEnd := now + 45000 },
            .setAlarm (now + 45000),
            .broadcastState { gs with
                              phase := .presenting, maxSlides := maxSlides,
                              timerEnd := now + 45000 }]⟩)) := by
  constructor
  · rintro rfl
    rfl
  · rintro gs rfl
    constructor
    · intro e he
      simp [startGame, he]
    · intro adj' hok
      simp [startGame, hok]

/-- Witness for C1 (amended): a session in the `voting` phase, default
deck — `startGame` succeeds and moves it to `presenting`. -/
theorem startGame_phase_independent_witness :
    (startGame emptyDeckEnv [] (some sampleVoting) "default" 10 0).state =
      some { sampleVoting with
             phase := .presenting, maxSlides := 10, timerEnd := 45000 } := by
  have h := ((startGame_phase_independent emptyDeckEnv [] (some sampleVoting)
    "default" 10 0).2 sampleVoting rfl).2 [] rfl
  rw [h]

/-- C2: the voting-timer winner computation
(`votes.logical > votes.chaotic ? 'logical' : 'chaotic'`) picks `logical`
exactly when the logical tally is strictly greater, and every tie —
including 0–0 — resolves to `chaotic`. -/
theorem winner_strict_majority_ties_chaotic (v : Votes) :
    (determineWinner v = .logical ↔ v.chaotic < v.logical) ∧
    (v.logical = v.chaotic → determineWinner v = .chaotic) := by
  unfold determineWinner
  constructor
  · by_cases h : v.logical > v.chaotic <;> simp [h]
  · intro h
    simp [h]

/-- Witness for C2: the 2–2 tie resolves to `chaotic`. -/
theorem winner_strict_majority_ties_chaotic_witness :
    determineWinner ⟨2, 2⟩ = .chaotic :=
  (winner_strict_majority_ties_chaotic ⟨2, 2⟩).2 rfl

/-- C8: a voter already recorded in the open round who votes again (with
any choice) gets the explicit `'User has already voted'` rejection, and
the tallies, the voter set — the whole state — and the broadcast list are
untouched. -/
theorem duplicate_vote_rejected (gs : GameState) (userId : String)
    (choice : VoteChoice) (hopen : gs.votingOpen = true)
    (hv : userId ∈ gs.voters) :
    vote (some gs) userId choice = ⟨.error .alreadyVoted, some gs, []⟩ := by
  simp [vote, hopen, hv]

/-- Witness for C8: `v1` voted `logical`; a second `chaotic` vote by `v1`
is rejected and changes nothing. -/
theorem duplicate_vote_rejected_witness :
    vote (some sampleMidRound) "v1" .chaotic =
      ⟨.error .alreadyVoted, some sampleMidRound, []⟩ :=
  duplicate_vote_rejected sampleMidRound "v1" .chaotic rfl (by decide)

/-- C9 (counterexample): the claim says every mutating operation on an
uninitialized coordinator fails with a SessionNotFound error.  `vote` does
not: with no session record it fails with the voting-closed error
(`'Voting is not currently open'`), which is a different error than
`startGame`'s `'Session not initialized'`. -/
theorem vote_uninitialized_votingNotOpen :
    (vote none "v1" .logical).result = .error .votingNotOpen ∧
    GameError.votingNotOpen ≠ GameError.sessionNotInitialized :=
  ⟨rfl, by decide⟩

/-- C9 (amended): on an uninitialized coordinator, `startGame` fails with
the `'Session not initialized'` error, but `vote` fails with the
`'Voting is not currently open'` error (the same response as for a closed
round); in both cases the state stays uninitialized and nothing is
broadcast. -/
theorem uninitialized_mutations_errors (env : DeckEnv) (adj : AdjTable)
    (deckId : String) (maxSlides now : Nat) (userId : String)
    (choice : VoteChoice) :
    startGame env adj none deckId maxSlides now =
      ⟨.error .sessionNotInitialized, none, adj, []⟩ ∧
    vote none userId choice = ⟨.error .votingNotOpen, none, []⟩ :=
  ⟨rfl, rfl⟩

/-- C3: the claim says every persist-and-broadcast operation writes durable
storage before broadcasting, in particular the voting-timer fire that ends
the game.  The source violates exactly that case: in the finished branch of
`processVotesAndAdvance` the calls are `broadcastGameState()` then
`saveGameState()`.  Evaluated at a concrete voting-phase alarm fire whose
next-slide lookup is exhausted (empty adjacency table), the action trace
broadcasts the `finished` state first and persists it second. -/
theorem finished_transition_broadcasts_before_save :
    (alarm [] (some sampleVoting) 0).2 =
      [Action.broadcastState
         { sampleVoting with votingOpen := false, phase := .finished },
       Action.save
         { sampleVoting with votingOpen := false, phase := .finished }] ∧
    ({ sampleVoting with
       votingOpen := false, phase := .finished } : GameState).phase =
      GamePhase.finished :=
  ⟨rfl, rfl⟩

/-- C4: an alarm fire in the `presenting` phase with
`slideCount >= maxSlides` transitions straight to `finished`: the result
is the same state with only the phase changed (saved, then broadcast), so
`votingOpen` stays `false`, the vote round (`voters`, `votes`) is not
cleared, and no voting alarm is armed. -/
theorem final_slide_alarm_skips_voting (adj : AdjTable) (gs : GameState)
    (now : Nat) (hph : gs.phase = .presenting)
    (hmax : gs.maxSlides ≤ gs.slideCount) (hvo : gs.votingOpen = false) :
    alarm adj (some gs) now =
      (some { gs with phase := .finished },
       [.save { gs with phase := .finished },
        .broadcastState { gs with phase := .finished }]) ∧
    ({ gs with phase := .finished } : GameState).votingOpen = false ∧
    ({ gs with phase := .finished } : GameState).voters = gs.voters ∧
    ({ gs with phase := .finished } : GameState).votes = gs.votes ∧
    (∀ t, Action.setAlarm t ∉ (alarm adj (some gs) now).2) := by
  have hge : gs.slideCount ≥ gs.maxSlides := hmax
  refine ⟨by simp [alarm, hph, hge], hvo, rfl, rfl, ?_⟩
  intro t
  simp [alarm, hph, hge]

/-- Witness for C4: a `presenting` session on its final slide
(`slideCount = 1 = maxSlides`) goes directly to `finished`. -/
theorem final_slide_alarm_skips_voting_witness :
    alarm [] (some samplePresentingLast) 0 =
      (some { samplePresentingLast with phase := .finished },
       [.save { samplePresentingLast with phase := .finished },
        .broadcastState { samplePresentingLast with phase := .finished }]) :=
  (final_slide_alarm_skips_voting [] samplePresentingLast 0 rfl
    (by decide) rfl).1

/-- C5: with the adjacency row of the current slide present, `getNextSlide`
returns `some s` exactly when `s` is unused and the chosen ranked list
splits as `pre ++ s :: suf` with every earlier-ranked entry already used
(i.e. `s` is the first unused entry in rank order), and returns `none`
exactly when every listed neighbor is already in `usedSlides`. -/
theorem getNextSlide_first_unused (adj : AdjTable) (gs : GameState)
    (choice : VoteChoice) (entry : AdjEntry)
    (h : lookupAdj adj gs.currentSlide = some entry) :
    (getNextSlide adj gs choice = none ↔
      ∀ s ∈ choiceList choice entry, s ∈ gs.usedSlides) ∧
    (∀ s, getNextSlide adj gs choice = some s ↔
      s ∉ gs.usedSlides ∧
      ∃ pre suf, choiceList choice entry = pre ++ s :: suf ∧
        ∀ t ∈ pre, t ∈ gs.usedSlides) := by
  unfold getNextSlide
  rw [h]
  constructor
  · exact firstUnused_eq_none_iff _ _
  · intro s
    constructor
    · intro hs
      obtain ⟨h1, pre, suf, hdec, hpre⟩ := firstUnused_eq_some _ _ _ hs
      exact ⟨h1, pre, suf, hdec, hpre⟩
    · rintro ⟨h1, pre, suf, hdec, hpre⟩
      show firstUnused gs.usedSlides (choiceList choice entry) = some s
      rw [hdec]
      exact firstUnused_of_split _ _ _ _ h1 hpre

/-- Witness for C5: from the fresh session (`usedSlides = {slide_1}`) with
the mock row of `slide_1`, the `logical` selection yields `slide_2`, the
first-ranked unused neighbor. -/
theorem getNextSlide_first_unused_witness :
    getNextSlide mockAdj (initialState "ROOM01") .logical = some "slide_2" :=
  ((getNextSlide_first_unused mockAdj (initialState "ROOM01") .logical
      mockSlide1 rfl).2 "slide_2").mpr
    ⟨by decide, [], ["slide_3", "slide_4"], rfl, by simp⟩

/-- C10: rebuilding the in-memory state from the persisted row
(`loadGameState` after coordinator recreation) resets the round regardless
of the persisted phase — zero tallies, empty voter set, `votingOpen` false
— while preserving every persisted field; consequently a voting-phase
alarm fired right after recreation dispatches to `processVotesAndAdvance`,
whose winner computation on the 0–0 tally resolves to `chaotic`. -/
theorem reload_resets_round (gs : GameState) (adj : AdjTable) (now : Nat) :
    (loadFromRecord (saveRecord gs)).votes = ⟨0, 0⟩ ∧
    (loadFromRecord (saveRecord gs)).voters = ∅ ∧
    (loadFromRecord (saveRecord gs)).votingOpen = false ∧
    (loadFromRecord (saveRecord gs)).phase = gs.phase ∧
    (loadFromRecord (saveRecord gs)).currentSlide = gs.currentSlide ∧
    (loadFromRecord (saveRecord gs)).usedSlides = gs.usedSlides ∧
    (loadFromRecord (saveRecord gs)).slideCount = gs.slideCount ∧
    (loadFromRecord (saveRecord gs)).maxSlides = gs.maxSlides ∧
    (loadFromRecord (saveRecord gs)).timerEnd = gs.timerEnd ∧
    determineWinner (loadFromRecord (saveRecord gs)).votes = .chaotic ∧
    (gs.phase = .voting →
      alarm adj (some (loadFromRecord (saveRecord gs))) now =
        processVotesAndAdvance adj (loadFromRecord (saveRecord gs)) now) := by
  refine ⟨rfl, rfl, rfl, rfl, rfl, rfl, rfl, rfl, rfl, rfl, ?_⟩
  intro h
  simp [alarm, loadFromRecord, saveRecord, h]

/-- Witness for C10: reloading a persisted voting-phase session yields the
0–0 round, and the subsequent alarm dispatches to the vote processor. -/
theorem reload_resets_round_witness :
    (loadFromRecord (saveRecord sampleVoting)).votes = ⟨0, 0⟩ ∧
    alarm [] (some (loadFromRecord (saveRecord sampleVoting))) 0 =
      processVotesAndAdvance [] (loadFromRecord (saveRecord sampleVoting)) 0 :=
  ⟨(reload_resets_round sampleVoting [] 0).1,
   (reload_resets_round sampleVoting [] 0).2.2.2.2.2.2.2.2.2.2 rfl⟩

/-- C6: in every reachable coordinator state of a game (initialized once,
then evolved by `startGame`/`vote`/`alarm` transitions and crash-reload
round trips), the loaded state satisfies `currentSlide ∈ usedSlides` and
`slideCount = |usedSlides|`, and every further transition only grows the
used-slide set. -/
theorem reach_slide_invariant_and_growth (c : Coord) (h : Reach c) :
    (∀ gs, c.gameState = some gs →
      gs.currentSlide ∈ gs.usedSlides ∧ gs.slideCount = gs.usedSlides.card) ∧
    (∀ c', Step c c' → stateUsed c.gameState ⊆ stateUsed c'.gameState) :=
  ⟨fun gs hgs => reach_slideInv c h gs hgs,
   fun c' hs => (step_preserves c c' hs).1⟩

/-- Witness for C6: the freshly initialized session is reachable and
satisfies the invariant. -/
theorem reach_slide_invariant_and_growth_witness :
    (initialState "ROOM01").currentSlide ∈ (initialState "ROOM01").usedSlides ∧
    (initialState "ROOM01").slideCount = (initialState "ROOM01").usedSlides.card :=
  (reach_slide_invariant_and_growth ⟨[], some (initialState "ROOM01")⟩
    (Reach.init [] "ROOM01")).1 (initialState "ROOM01") rfl

/-- C7: within one voting round — opened by `startVotingTimer`, which
re-establishes `|voters| = 0 = logical + chaotic` — the invariant
`|voters| = votes.logical + votes.chaotic` survives every sequence of
`vote` calls, and a call by an already recorded voter changes nothing (no
voter is ever counted twice in the tallies). -/
theorem vote_round_tally_invariant (gs : GameState) (now : Nat)
    (calls : List (String × VoteChoice)) (h : TallyInv gs) :
    TallyInv (startVotingTimer gs now).1 ∧
    (∀ gs', applyVotes (some gs) calls = some gs' →
      gs'.voters.card = gs'.votes.logical + gs'.votes.chaotic) ∧
    (∀ userId choice, userId ∈ gs.voters →
      (vote (some gs) userId choice).state = some gs) := by
  refine ⟨by simp [startVotingTimer, TallyInv], ?_, ?_⟩
  · intro gs' heq
    exact applyVotes_tally calls gs h gs' heq
  · intro userId choice hv
    by_cases hopen : gs.votingOpen = false
    · simp [vote, hopen]
    · simp [vote, hopen, hv]

/-- Witness for C7: the demonstration round (`v1` logical, duplicate `v1`
rejected, `v2` chaotic) ends with two voters and a 1–1 tally. -/
theorem vote_round_tally_invariant_witness :
    applyVotes (some sampleOpenRound) demoCalls = some demoFinal ∧
    demoFinal.voters.card = demoFinal.votes.logical + demoFinal.votes.chaotic :=
  ⟨by decide,
   (vote_round_tally_invariant sampleOpenRound 0 demoCalls rfl).2.1
     demoFinal (by decide)⟩

end BattleDecks
